import Mathlib

/-!
Verification of the mlb_k_model core: a shallow embedding of the
rate-fusion, Monte-Carlo simulation, calibration and orchestration code
(src/k_pred_core.py, src/kpred_sim.py, src/gen_simulations.py,
src/10_mlb_gen_simulations.py, src/calibrate.py, src/online_calibrate.py,
src/today_proj.py, src/today_k_proj.py), together with theorems settling
the behavioural claims about it.

Conventions: Python floats are embedded as real numbers where the code is
transcendental (log-odds fusion) and as rationals where the code is
finite arithmetic; random draws are passed in explicitly as streams, so a
stochastic routine becomes a deterministic function of its draw stream;
fallible lookups return `Option`.
-/

/-- Python `int()` applied to a number: truncation toward zero. -/
def pyInt (x : ℚ) : ℤ := if 0 ≤ x then ⌊x⌋ else ⌈x⌉

namespace KPredCore

/-- The `logit` helper inside `merge_prob` (src/k_pred_core.py):
`logit(p) = log(p / (1 - p))`. -/
noncomputable def logit (p : ℝ) : ℝ := Real.log (p / (1 - p))

/-- `merge_prob(k_pitcher, k_batter, league)` from src/k_pred_core.py
(the source defaults `league` to 0.20): log-odds fusion
`1 / (1 + exp(-(logit kp + logit kb - logit league)))`. -/
noncomputable def merge_prob (k_pitcher k_batter league : ℝ) : ℝ :=
  1 / (1 + Real.exp (-(logit k_pitcher + logit k_batter - logit league)))

/-- The logistic sigmoid `1 / (1 + exp (-z))` lies strictly between 0 and 1. -/
lemma sigmoid_mem_Ioo (z : ℝ) : 1 / (1 + Real.exp (-z)) ∈ Set.Ioo (0 : ℝ) 1 := by
  have he : 0 < Real.exp (-z) := Real.exp_pos _
  constructor
  · positivity
  · rw [div_lt_one (by linarith)]
    linarith

/-- The logistic sigmoid is strictly increasing. -/
lemma sigmoid_lt_sigmoid {z w : ℝ} (h : z < w) :
    1 / (1 + Real.exp (-z)) < 1 / (1 + Real.exp (-w)) := by
  have he : Real.exp (-w) < Real.exp (-z) := Real.exp_lt_exp.mpr (by linarith)
  have h1 : 0 < 1 + Real.exp (-w) := by positivity
  exact one_div_lt_one_div_of_lt h1 (by linarith)

/-- The logit transform is strictly increasing on (0,1). -/
lemma logit_lt_logit {p q : ℝ} (hp : p ∈ Set.Ioo (0 : ℝ) 1) (hq : q ∈ Set.Ioo (0 : ℝ) 1)
    (h : p < q) : logit p < logit q := by
  obtain ⟨hp0, hp1⟩ := hp
  obtain ⟨hq0, hq1⟩ := hq
  unfold logit
  apply Real.log_lt_log (div_pos hp0 (by linarith))
  rw [div_lt_div_iff (by linarith) (by linarith)]
  nlinarith

end KPredCore

/-- C1: for all pitcher, batter and league rates in the open interval (0,1),
`merge_prob` returns a value strictly inside (0,1), and the value is strictly
increasing in the pitcher rate and in the batter rate. -/
theorem merge_prob_props (p p' q q' league : ℝ)
    (hp : p ∈ Set.Ioo (0 : ℝ) 1) (hp' : p' ∈ Set.Ioo (0 : ℝ) 1)
    (hq : q ∈ Set.Ioo (0 : ℝ) 1) (hq' : q' ∈ Set.Ioo (0 : ℝ) 1)
    (hL : league ∈ Set.Ioo (0 : ℝ) 1) :
    KPredCore.merge_prob p q league ∈ Set.Ioo (0 : ℝ) 1
    ∧ (p < p' → KPredCore.merge_prob p q league < KPredCore.merge_prob p' q league)
    ∧ (q < q' → KPredCore.merge_prob p q league < KPredCore.merge_prob p q' league) := by
  refine ⟨KPredCore.sigmoid_mem_Ioo _, ?_, ?_⟩
  · intro hpp
    have hl := KPredCore.logit_lt_logit hp hp' hpp
    exact KPredCore.sigmoid_lt_sigmoid (by linarith)
  · intro hqq
    have hl := KPredCore.logit_lt_logit hq hq' hqq
    exact KPredCore.sigmoid_lt_sigmoid (by linarith)

/-- Witness for C1 at concrete rates 1/4 < 1/2, 1/3 < 2/3, league 1/5. -/
theorem merge_prob_props_witness :
    KPredCore.merge_prob (1/4) (1/3) (1/5) ∈ Set.Ioo (0 : ℝ) 1
    ∧ KPredCore.merge_prob (1/4) (1/3) (1/5) < KPredCore.merge_prob (1/2) (1/3) (1/5)
    ∧ KPredCore.merge_prob (1/4) (1/3) (1/5) < KPredCore.merge_prob (1/4) (2/3) (1/5) :=
  have h := merge_prob_props (1/4) (1/2) (1/3) (2/3) (1/5)
    (by constructor <;> norm_num) (by constructor <;> norm_num)
    (by constructor <;> norm_num) (by constructor <;> norm_num)
    (by constructor <;> norm_num)
  ⟨h.1, h.2.1 (by norm_num), h.2.2 (by norm_num)⟩

/-- C2: for every league rate in (0,1), `merge_prob(league, league, league)`
returns exactly `league`. -/
theorem merge_prob_identity (league : ℝ) (h : league ∈ Set.Ioo (0 : ℝ) 1) :
    KPredCore.merge_prob league league league = league := by
  obtain ⟨h0, h1⟩ := h
  have h1L : (0:ℝ) < 1 - league := by linarith
  have hdiv : 0 < league / (1 - league) := div_pos h0 h1L
  unfold KPredCore.merge_prob KPredCore.logit
  have harg : -(Real.log (league / (1 - league)) + Real.log (league / (1 - league))
      - Real.log (league / (1 - league))) = -Real.log (league / (1 - league)) := by ring
  rw [harg, Real.exp_neg, Real.exp_log hdiv, inv_div]
  have hL : league ≠ 0 := ne_of_gt h0
  have hsum : 1 + (1 - league) / league = 1 / league := by
    field_simp
  rw [hsum, one_div_one_div]

/-- Witness for C2 at league rate 1/5. -/
theorem merge_prob_identity_witness :
    KPredCore.merge_prob (1/5) (1/5) (1/5) = 1/5 :=
  merge_prob_identity (1/5) (by constructor <;> norm_num)

namespace KpredSim

/-- The `group` argument of `fetch_k_rate`. The source passes the strings
"pitching" / "hitting" (from src/kpred_sim.py main) or "pitcher" / "batter"
(from src/10_mlb_gen_simulations.py and src/today_proj.py); the function
branches on equality with "pitching" only, so the strings are embedded as
an enumeration and the branch test is equality with `pitching`. -/
inductive StatGroup
  | pitching
  | hitting
  | pitcher
  | batter
deriving DecidableEq

/-- The fields of `splits[0]["stat"]` that `fetch_k_rate` reads; a `none`
field is an absent key (`stat.get` returning `None`). -/
structure StatSplit where
  battersFaced : Option ℕ
  plateAppearances : Option ℕ
  strikeOuts : Option ℕ
deriving DecidableEq

/-- Python `stat.get(key) or 0`: both an absent key and an explicit 0 give 0. -/
def orZero (o : Option ℕ) : ℕ := o.getD 0

/-- `fetch_k_rate(pid, season, group)` from src/kpred_sim.py, with the
network already resolved to its payload: `splits` is `none` when the season
query returned no splits (or raised), `some stat` otherwise. For group
"pitching" the rate is `strikeOuts / battersFaced`, otherwise
`strikeOuts / plateAppearances`; a zero denominator yields `None`.
No clamping of any kind is applied. -/
def fetch_k_rate (group : StatGroup) (splits : Option StatSplit) : Option ℚ :=
  match splits with
  | none => none
  | some stat =>
    if group = StatGroup.pitching then
      let bf := orZero stat.battersFaced
      let k := orZero stat.strikeOuts
      if bf = 0 then none else some ((k : ℚ) / (bf : ℚ))
    else
      let pa := orZero stat.plateAppearances
      let k := orZero stat.strikeOuts
      if pa = 0 then none else some ((k : ℚ) / (pa : ℚ))

end KpredSim

/-- C4 counterexample: a pitcher with 2 batters faced and 0 strikeouts gets
the unclamped rate `0` from `fetch_k_rate`, which is not strictly inside
(0,1); no clamping to `[eps, 1-eps]` exists in the resolution code. -/
theorem rate_not_clamped_counterexample :
    KpredSim.fetch_k_rate KpredSim.StatGroup.pitching
      (some { battersFaced := some 2, plateAppearances := none, strikeOuts := some 0 })
      = some 0
    ∧ (0 : ℚ) ∉ Set.Ioo (0 : ℚ) 1 := by
  constructor
  · simp [KpredSim.fetch_k_rate, KpredSim.orZero]
  · simp [Set.mem_Ioo]

/-- C4 amended: resolved rates are returned unclamped as the raw ratio
`strikeOuts / battersFaced`, which lies in the closed interval [0,1] when
`strikeOuts ≤ battersFaced` — the endpoints 0 and 1 are attainable, so the
fusion layer can receive a rate of exactly 0 or 1; only a zero denominator
is treated as "no data" (`none`). -/
theorem rate_range_amended (bf k : ℕ) (hbf : bf ≠ 0) (hk : k ≤ bf) :
    KpredSim.fetch_k_rate KpredSim.StatGroup.pitching
      (some { battersFaced := some bf, plateAppearances := none, strikeOuts := some k })
      = some ((k : ℚ) / (bf : ℚ))
    ∧ 0 ≤ (k : ℚ) / (bf : ℚ) ∧ (k : ℚ) / (bf : ℚ) ≤ 1 := by
  have hbfQ : (0 : ℚ) < (bf : ℚ) := by
    exact_mod_cast Nat.pos_of_ne_zero hbf
  refine ⟨?_, div_nonneg (by positivity) (le_of_lt hbfQ), ?_⟩
  · simp [KpredSim.fetch_k_rate, KpredSim.orZero, hbf]
  · rw [div_le_one hbfQ]
    exact_mod_cast hk

/-- Witness for the amended C4 at 2 batters faced, 2 strikeouts (rate
exactly 1, on the boundary of the closed interval). -/
theorem rate_range_amended_witness :
    KpredSim.fetch_k_rate KpredSim.StatGroup.pitching
      (some { battersFaced := some 2, plateAppearances := none, strikeOuts := some 2 })
      = some ((2 : ℚ) / (2 : ℚ))
    ∧ 0 ≤ (2 : ℚ) / (2 : ℚ) ∧ (2 : ℚ) / (2 : ℚ) ≤ 1 :=
  rate_range_amended 2 2 (by decide) (by decide)

namespace MlbGenSimulations

/-- The global fallback rate `GLOBAL_DEFAULT = 0.252` of
src/10_mlb_gen_simulations.py (also `FALLBACK_DEFAULT` / `DEFAULT`
elsewhere in the repo). -/
def GLOBAL_DEFAULT : ℚ := 252 / 1000

/-- The per-pitcher fallback table of src/10_mlb_gen_simulations.py main:
`fb.groupby("pitcher_id")["exp_ks"].mean()` divided by 9, i.e. the mean of
the `exp_ks` rows of the player in the fallback CSV, converted to a per-plate-
appearance rate; a player with no rows is absent (`none`). -/
def hist_rate (fb : List (ℕ × ℚ)) (pid : ℕ) : Option ℚ :=
  let vals := (fb.filter (fun r => r.1 == pid)).map Prod.snd
  if vals.length = 0 then none else some (vals.sum / (vals.length : ℚ) / 9)

/-- The tail of the fallback chain in src/10_mlb_gen_simulations.py main:
`elif pid in hist_rate: k_p = hist_rate[pid] else: k_p = GLOBAL_DEFAULT`. -/
def fallback_rate (fb : List (ℕ × ℚ)) (pid : ℕ) : ℚ :=
  match hist_rate fb pid with
  | some h => h
  | none => GLOBAL_DEFAULT

/-- The pitcher-rate resolution of src/10_mlb_gen_simulations.py main
(lines 74-89): first `fetch_k_rate(pid, season, "pitcher")` (note the
group string "pitcher", which takes the non-"pitching" branch of
`fetch_k_rate`), then the per-pitcher historical fallback, then
`GLOBAL_DEFAULT`. `primary` is the already-materialized season payload per
player id. -/
def resolve_pitcher_rate (primary : ℕ → Option KpredSim.StatSplit)
    (fb : List (ℕ × ℚ)) (pid : ℕ) : ℚ :=
  match KpredSim.fetch_k_rate KpredSim.StatGroup.pitcher (primary pid) with
  | some r => r
  | none => fallback_rate fb pid

/-- The batter-rate resolution of src/10_mlb_gen_simulations.py main
(lines 87-89): `float(rb) if rb is not None else GLOBAL_DEFAULT` — the
primary lookup result or directly the global default. The per-player
fallback table is never consulted for batters, which the signature
records: the function does not even take the fallback table. -/
def resolve_batter_rate (primary : ℕ → Option KpredSim.StatSplit) (pid : ℕ) : ℚ :=
  match KpredSim.fetch_k_rate KpredSim.StatGroup.batter (primary pid) with
  | some r => r
  | none => GLOBAL_DEFAULT

end MlbGenSimulations

/-- C5 counterexample: the resolution chain is not followed for role =
batter. Batter 7 is present only in the fallback source (empty primary
table; fallback rows give them a mean `exp_ks` of 4.5, i.e. a fallback
rate of 1/2), yet the batter loop of src/10_mlb_gen_simulations.py
resolves them to the global default 0.252, not to the fallback rate: the
per-player secondary fallback is skipped for batters. -/
theorem batter_fallback_counterexample :
    MlbGenSimulations.resolve_batter_rate (fun _ => none) 7
      = MlbGenSimulations.GLOBAL_DEFAULT
    ∧ MlbGenSimulations.fallback_rate [(7, 9/2)] 7 = 1/2
    ∧ MlbGenSimulations.GLOBAL_DEFAULT ≠ (1 : ℚ)/2 := by
  have hist7 : MlbGenSimulations.hist_rate [(7, 9/2)] 7 = some (1/2) := by
    simp [MlbGenSimulations.hist_rate]
    norm_num
  refine ⟨rfl, ?_, by norm_num [MlbGenSimulations.GLOBAL_DEFAULT]⟩
  simp [MlbGenSimulations.fallback_rate, hist7]

/-- C5 amended: rate resolution in src/10_mlb_gen_simulations.py is
role-dependent. For role = pitcher the full chain holds — (1) the primary
record, deriving `strikeOuts / opportunities` only when the opportunity
count is non-zero, a zero count being "no data" that forces fallback;
(2) the per-player fallback (mean `exp_ks` divided by 9); (3) the fixed
global default 0.252 — so a pitcher present only in the fallback source
gets the fallback rate and a pitcher in neither source gets exactly
`GLOBAL_DEFAULT`. For role = batter step (2) is skipped: the resolution is
the primary rate when present and otherwise directly `GLOBAL_DEFAULT`, so
a batter present only in the fallback source gets the global default. -/
theorem resolve_rate_chain_amended (primary : ℕ → Option KpredSim.StatSplit)
    (fb : List (ℕ × ℚ)) (pid : ℕ) :
    (∀ s pa k, primary pid = some s → s.plateAppearances = some pa → pa ≠ 0 →
      s.strikeOuts = some k →
      MlbGenSimulations.resolve_pitcher_rate primary fb pid = (k : ℚ) / (pa : ℚ))
    ∧ (∀ s, primary pid = some s → KpredSim.orZero s.plateAppearances = 0 →
      MlbGenSimulations.resolve_pitcher_rate primary fb pid
        = MlbGenSimulations.fallback_rate fb pid)
    ∧ (primary pid = none →
      MlbGenSimulations.resolve_pitcher_rate primary fb pid
        = MlbGenSimulations.fallback_rate fb pid)
    ∧ (∀ h, MlbGenSimulations.hist_rate fb pid = some h →
      MlbGenSimulations.fallback_rate fb pid = h)
    ∧ (MlbGenSimulations.hist_rate fb pid = none →
      MlbGenSimulations.fallback_rate fb pid = MlbGenSimulations.GLOBAL_DEFAULT)
    ∧ (∀ s pa k, primary pid = some s → s.plateAppearances = some pa → pa ≠ 0 →
      s.strikeOuts = some k →
      MlbGenSimulations.resolve_batter_rate primary pid = (k : ℚ) / (pa : ℚ))
    ∧ (∀ s, primary pid = some s → KpredSim.orZero s.plateAppearances = 0 →
      MlbGenSimulations.resolve_batter_rate primary pid
        = MlbGenSimulations.GLOBAL_DEFAULT)
    ∧ (primary pid = none →
      MlbGenSimulations.resolve_batter_rate primary pid
        = MlbGenSimulations.GLOBAL_DEFAULT) := by
  refine ⟨?_, ?_, ?_, ?_, ?_, ?_, ?_, ?_⟩
  · intro s pa k hs hpa hpane hk
    simp [MlbGenSimulations.resolve_pitcher_rate, KpredSim.fetch_k_rate, hs, hpa, hk,
      KpredSim.orZero, hpane]
  · intro s hs hz
    simp [MlbGenSimulations.resolve_pitcher_rate, KpredSim.fetch_k_rate, hs, hz]
  · intro hnone
    simp [MlbGenSimulations.resolve_pitcher_rate, KpredSim.fetch_k_rate, hnone]
  · intro h hh
    simp [MlbGenSimulations.fallback_rate, hh]
  · intro hn
    simp [MlbGenSimulations.fallback_rate, hn]
  · intro s pa k hs hpa hpane hk
    simp [MlbGenSimulations.resolve_batter_rate, KpredSim.fetch_k_rate, hs, hpa, hk,
      KpredSim.orZero, hpane]
  · intro s hs hz
    simp [MlbGenSimulations.resolve_batter_rate, KpredSim.fetch_k_rate, hs, hz]
  · intro hnone
    simp [MlbGenSimulations.resolve_batter_rate, KpredSim.fetch_k_rate, hnone]

/-- Witness for the amended C5: with an empty primary table and fallback
rows giving player 7 a mean `exp_ks` of 4.5, pitcher 7 resolves to
4.5/9 = 1/2 (the fallback rate, distinct from the global default),
pitcher 8 — absent from both sources — resolves to exactly 252/1000, and
batter 7 resolves to the global default despite being in the fallback
source. -/
theorem resolve_rate_chain_amended_witness :
    MlbGenSimulations.resolve_pitcher_rate (fun _ => none) [(7, 9/2)] 7 = 1/2
    ∧ MlbGenSimulations.resolve_pitcher_rate (fun _ => none) [(7, 9/2)] 8
        = MlbGenSimulations.GLOBAL_DEFAULT
    ∧ MlbGenSimulations.resolve_batter_rate (fun _ => none) 7
        = MlbGenSimulations.GLOBAL_DEFAULT
    ∧ (1 : ℚ)/2 ≠ MlbGenSimulations.GLOBAL_DEFAULT := by
  have h7 := resolve_rate_chain_amended (fun _ => none) [(7, 9/2)] 7
  have h8 := resolve_rate_chain_amended (fun _ => none) [(7, 9/2)] 8
  have hist7 : MlbGenSimulations.hist_rate [(7, 9/2)] 7 = some (1/2) := by
    simp [MlbGenSimulations.hist_rate]
    norm_num
  have hist8 : MlbGenSimulations.hist_rate [(7, 9/2)] 8 = none := by
    simp [MlbGenSimulations.hist_rate]
  refine ⟨?_, ?_, h7.2.2.2.2.2.2.2 rfl,
    by norm_num [MlbGenSimulations.GLOBAL_DEFAULT]⟩
  · rw [h7.2.2.1 rfl, h7.2.2.2.1 (1/2) hist7]
  · rw [h8.2.2.1 rfl, h8.2.2.2.2.1 hist8]

namespace KPredCore

/-- The random draws consumed by one realization of `sim_game` in
src/k_pred_core.py: `outs` is the `np.random.poisson(outs_lambda)` draw,
`order i` the i-th `np.random.randint(0, 9)` draw, and `u i` the uniform
variate behind the i-th `np.random.binomial(1, p)` draw (success iff
`u i < p`). The draws are an explicit input so a realization is a
deterministic function of them. -/
structure Draws where
  outs : ℕ
  order : ℕ → Fin 9
  u : ℕ → ℝ

open Classical in
/-- `sim_game(pks, outs_lambda)` from src/k_pred_core.py: draw
`outs ~ Poisson(outs_lambda)`, take `pas = int(outs * 1.15)` plate
appearances, pick a batting slot in [0,9) for each, and count the Bernoulli
successes at the probability of the slot. `outs_lambda` only parameterizes the
distribution of `d.outs`, so it does not appear on the right-hand side. -/
noncomputable def sim_game (pks : List ℝ) (outs_lambda : ℝ) (d : Draws) : ℕ :=
  ((List.range (Nat.floor ((d.outs : ℝ) * 1.15))).filter
    (fun i => decide (d.u i < pks.getD (d.order i).val 0))).length

/-- `sim_many(pks, n, outs_lambda)` from src/k_pred_core.py:
`np.fromiter((sim_game(pks, outs_lambda) for _ in range(n)), count=n)` —
one independent realization per element of `range n`. -/
noncomputable def sim_many (pks : List ℝ) (n : ℕ) (outs_lambda : ℝ)
    (ds : ℕ → Draws) : List ℕ :=
  (List.range n).map (fun i => sim_game pks outs_lambda (ds i))

end KPredCore

namespace GenSimulations

/-- One plate appearance per out: the while-loop body of `sim_game` in
src/gen_simulations.py, unrolled over the remaining outs. `idx` is the
current batting-order slot, `t` indexes the `np.random.rand()` stream `u`,
and each step adds one strikeout when `u t < pks[idx]` and always consumes
exactly one out. -/
def sim_game_aux (pks : List ℚ) (u : ℕ → ℚ) : ℕ → ℕ → ℕ → ℕ
  | _, _, 0 => 0
  | idx, t, r + 1 =>
    (if u t < pks.getD idx 0 then 1 else 0)
      + sim_game_aux pks u ((idx + 1) % pks.length) (t + 1) r

/-- `sim_game(pks, max_outs)` from src/gen_simulations.py: cycle through
`pks` from slot 0, one uniform draw per plate appearance, until `max_outs`
outs have accumulated; return the strikeout count. -/
def sim_game (pks : List ℚ) (max_outs : ℕ) (u : ℕ → ℚ) : ℕ :=
  sim_game_aux pks u 0 0 max_outs

/-- `sim_many(pks, sims, max_outs)` from src/gen_simulations.py: an array
of `sims` independent realizations of `sim_game`. -/
def sim_many (pks : List ℚ) (sims : ℕ) (max_outs : ℕ)
    (us : ℕ → ℕ → ℚ) : List ℕ :=
  (List.range sims).map (fun i => sim_game pks max_outs (us i))

/-- The empirical over-probability `(sim >= thresh).mean()` used by
src/gen_simulations.py and src/today_proj.py: the fraction of realization
counts at least `thresh`. -/
def p_over_frac (sim : List ℕ) (thresh : ℚ) : ℚ :=
  ((sim.filter (fun k => decide (thresh ≤ (k : ℚ)))).length : ℚ) / (sim.length : ℚ)

/-- The `p_over` column written by src/gen_simulations.py main: with
`max_outs = int(args.line * 3)`, it is `(sim >= max_outs).mean()` — the
comparison threshold is the outs threshold, not the strikeout line. -/
def p_over_of_line (sim : List ℕ) (line : ℚ) : ℚ :=
  p_over_frac sim ((pyInt (line * 3) : ℤ) : ℚ)

lemma sim_game_aux_le (pks : List ℚ) (u : ℕ → ℚ) :
    ∀ r idx t, sim_game_aux pks u idx t r ≤ r := by
  intro r
  induction r with
  | zero => intro idx t; simp [sim_game_aux]
  | succ n ih =>
    intro idx t
    unfold sim_game_aux
    have h := ih ((idx + 1) % pks.length) (t + 1)
    split <;> omega

end GenSimulations

namespace TodayProj

/-- `outs_thresh = int(args.line * 3)` from src/today_proj.py main. -/
def outs_thresh (line : ℚ) : ℤ := pyInt (line * 3)

/-- The simulation call of src/today_proj.py main (line 152):
`sims = sim_many(p_rates, outs_thresh, args.sims)`. Against the signature
`sim_many(pks, n, outs_lambda)` of src/k_pred_core.py this passes
`outs_thresh` as the realization count `n` and the configured `sims` as
the Poisson mean `outs_lambda`. -/
noncomputable def sims_vector (p_rates : List ℝ) (line : ℚ) (sims : ℕ)
    (ds : ℕ → KPredCore.Draws) : List ℕ :=
  KPredCore.sim_many p_rates (outs_thresh line).toNat (sims : ℝ) ds

/-- The `pr_raw` summary of src/today_proj.py main:
`(sims >= outs_thresh).mean()`. -/
def pr_raw (sim : List ℕ) (line : ℚ) : ℚ :=
  GenSimulations.p_over_frac sim ((outs_thresh line : ℤ) : ℚ)

end TodayProj

/-- C3: the simulators do return exactly the requested number of
realizations (`sim_many` of src/k_pred_core.py returns `n` entries, and
`sim_many` of src/gen_simulations.py returns `sims` entries), but the
vector consumed by the orchestrator src/today_proj.py is built by
`sim_many(p_rates, outs_thresh, args.sims)` with the arguments swapped, so
with the default line 6.5 it has `int(6.5*3) = 19` entries whatever the
configured `sims` — not `sims` entries. -/
theorem sim_vector_length_bug (pks pks2 : List ℝ) (n : ℕ) (lam : ℝ)
    (ds ds2 : ℕ → KPredCore.Draws) (pksQ : List ℚ) (simsQ m : ℕ)
    (us : ℕ → ℕ → ℚ) (sims : ℕ) :
    (KPredCore.sim_many pks n lam ds).length = n
    ∧ (GenSimulations.sim_many pksQ simsQ m us).length = simsQ
    ∧ (TodayProj.sims_vector pks2 (13/2) sims ds2).length = 19 := by
  refine ⟨by simp [KPredCore.sim_many], by simp [GenSimulations.sim_many], ?_⟩
  have hthresh : (TodayProj.outs_thresh (13/2)).toNat = 19 := by
    have h19 : TodayProj.outs_thresh (13/2) = 19 := by
      norm_num [TodayProj.outs_thresh, pyInt]
    rw [h19]
    rfl
  simp [TodayProj.sims_vector, KPredCore.sim_many, hthresh]

/-- C8 at a failing input: for the realization counts [5, 6, 7] and the
default line 6.5, the `p_over` of the code compares against
`int(6.5*3) = 19` and reports 0, while the fraction of realizations at or
above the strikeout line 6.5 is 1/3; the `pr_raw` of the orchestrator does the
same. The reported over-probability is computed against the outs
threshold, not the strikeout line. -/
theorem p_over_threshold_bug :
    GenSimulations.p_over_of_line [5, 6, 7] (13/2) = 0
    ∧ TodayProj.pr_raw [5, 6, 7] (13/2) = 0
    ∧ GenSimulations.p_over_frac [5, 6, 7] (13/2) = 1/3
    ∧ GenSimulations.p_over_of_line [5, 6, 7] (13/2)
        = GenSimulations.p_over_frac [5, 6, 7] ((19 : ℤ) : ℚ) := by
  have hthresh : (pyInt ((13:ℚ)/2 * 3) : ℚ) = (19 : ℚ) := by
    norm_num [pyInt]
  refine ⟨?_, ?_, ?_, ?_⟩
  · rw [GenSimulations.p_over_of_line, hthresh]
    norm_num [GenSimulations.p_over_frac, List.filter]
  · rw [TodayProj.pr_raw, TodayProj.outs_thresh, hthresh]
    norm_num [GenSimulations.p_over_frac, List.filter]
  · norm_num [GenSimulations.p_over_frac, List.filter]
  · rw [GenSimulations.p_over_of_line, hthresh]
    norm_num

namespace Calibrate

/-- The expectation-calibration fit shared by src/calibrate.py and
src/online_calibrate.py: `LinearRegression().fit(X, y)` on the historical
`(exp_raw, k_actual)` pairs, i.e. centered ordinary least squares. With a
zero centered x-variance the least-squares solve of the all-zero centered
design yields coefficient 0 and intercept equal to the mean outcome; an
empty input raises inside the library (`none`). Neither script checks a
minimum sample count before fitting. -/
def fit_linear (data : List (ℚ × ℚ)) : Option (ℚ × ℚ) :=
  if data = [] then none
  else
    let n : ℚ := (data.length : ℚ)
    let xbar := (data.map Prod.fst).sum / n
    let ybar := (data.map Prod.snd).sum / n
    let sxx := (data.map (fun q => (q.1 - xbar) ^ 2)).sum
    let sxy := (data.map (fun q => (q.1 - xbar) * (q.2 - ybar))).sum
    let slope := if sxx = 0 then 0 else sxy / sxx
    some (slope, ybar - slope * xbar)

end Calibrate

/-- C7 counterexample: the calibration fit on a single historical pair —
fewer pairs than any meaningful minimum — does not fail with any
`CalibrationInputError` (no such error exists in the repository); it
returns the degenerate fitted model with slope 0 and intercept 5. -/
theorem fit_linear_no_min_counterexample :
    Calibrate.fit_linear [((2 : ℚ), (5 : ℚ))] = some (0, 5) := by
  norm_num [Calibrate.fit_linear]

/-- C7 amended: the calibration fit enforces no minimum sample count and
raises no `CalibrationInputError` — for every nonempty list of historical
pairs, however small, it returns a fitted (possibly degenerate) model;
only an empty input fails, with a generic library error. -/
theorem fit_linear_total_amended (data : List (ℚ × ℚ)) (h : data ≠ []) :
    (Calibrate.fit_linear data).isSome = true := by
  simp [Calibrate.fit_linear, h]

/-- Witness for the amended C7 at the two-pair history [(1,3), (2,5)]. -/
theorem fit_linear_total_amended_witness :
    ([((1 : ℚ), (3 : ℚ)), (2, 5)] ≠ []) ∧
      (Calibrate.fit_linear [((1 : ℚ), (3 : ℚ)), (2, 5)]).isSome = true :=
  ⟨by simp, fit_linear_total_amended [((1 : ℚ), (3 : ℚ)), (2, 5)] (by simp)⟩

namespace TodayProj

/-- Python `round(x, nd)` on exact rational values: scale by `10 ^ nd`,
round half to even, scale back. -/
def pyRound (nd : ℕ) (x : ℚ) : ℚ :=
  let y := x * (10 : ℚ) ^ nd
  let m : ℤ := ⌊y⌋
  let r : ℤ :=
    if y - (m : ℚ) < 1/2 then m
    else if 1/2 < y - (m : ℚ) then m + 1
    else if m % 2 = 0 then m else m + 1
  (r : ℚ) / (10 : ℚ) ^ nd

/-- One output row of src/today_proj.py main. -/
structure ProjectionRecord where
  exp_raw : ℚ
  p_raw : ℚ
  exp_cal : ℚ
  p_cal : ℚ

/-- Record assembly in src/today_proj.py main (lines 154-166):
`er_cal = slope * er_raw + intercept`, then the row
`exp_raw = round(er_raw, 2)`, `p_raw = round(pr_raw, 3)`,
`exp_cal = round(er_cal, 2)`, `p_cal = round(pr_raw, 3)`. -/
def emit_record (slope intercept er_raw pr_raw : ℚ) : ProjectionRecord :=
  { exp_raw := pyRound 2 er_raw
    p_raw := pyRound 3 pr_raw
    exp_cal := pyRound 2 (slope * er_raw + intercept)
    p_cal := pyRound 3 pr_raw }

end TodayProj

/-- C6 at its failing input: on the apply path the expectation is
calibrated as `exp_cal = slope * exp_raw + intercept` (unclamped, up to
output rounding), but `p_cal` is identically the rounded raw probability
`p_raw` for every record — the fitted isotonic ProbabilityMapper (written
by src/online_calibrate.py to models/mlb_p_over_iso.pkl) is never loaded
or applied by src/today_proj.py. Concretely, with slope 2, intercept 1,
exp_raw 5 and p_raw 0.42, the emitted record has exp_cal = 11 and
p_cal = 0.42 = p_raw, whatever probability mapping was fitted. -/
theorem p_cal_copies_p_raw (slope intercept er pr : ℚ) :
    (TodayProj.emit_record slope intercept er pr).p_cal
      = (TodayProj.emit_record slope intercept er pr).p_raw
    ∧ (TodayProj.emit_record slope intercept er pr).exp_cal
      = TodayProj.pyRound 2 (slope * er + intercept)
    ∧ (TodayProj.emit_record 2 1 5 (42/100)).p_cal = 42/100
    ∧ (TodayProj.emit_record 2 1 5 (42/100)).exp_cal = 11 := by
  refine ⟨rfl, rfl, ?_, ?_⟩
  · norm_num [TodayProj.emit_record, TodayProj.pyRound]
  · norm_num [TodayProj.emit_record, TodayProj.pyRound]

namespace TodayKProj

/-- The outcome of one (game, side) iteration of src/today_k_proj.py:
either the loop crashes on an uncaught exception, or the side is skipped
with a printed reason and no output row, or a row is emitted from the
chosen lineup (tagged with its source, "cache" or "roster"). -/
inductive SideResult
  | crash
  | skipped (reason : String)
  | emitted (lineup : List ℕ) (src : String)

/-- `roster_lineup(team_id)` from src/today_k_proj.py: the first nine ids
of the active roster of the team (the roster itself is an input here). -/
def roster_lineup (roster : List ℕ) : List ℕ := roster.take 9

/-- One (game, side) iteration of src/today_k_proj.py (lines 101-133).
A missing probable pitcher is `prob_id = none`: the source computes
`int(getattr(g, side_prob_id))` before its `pd.isna(pid)` test, so a
missing id raises ValueError (crash) and the isna skip branch is
unreachable. With a pitcher present, a cached lineup shorter than 9 is
replaced by the first nine roster ids; if the replacement is still shorter
than 9 the side is skipped with the printed message "lineup incomplete";
otherwise a row is emitted from the chosen lineup (a cached lineup longer
than 9 is used as-is, unchecked). -/
def process_side (prob_id : Option ℕ) (cached roster : List ℕ) : SideResult :=
  match prob_id with
  | none => SideResult.crash
  | some _ =>
    let lu := if cached.length < 9 then roster_lineup roster else cached
    let src := if cached.length < 9 then r"roster" else r"cache"
    if lu.length < 9 then SideResult.skipped (r"lineup incomplete")
    else SideResult.emitted lu src

/-- The loop of src/today_k_proj.py over every (game, side) triple
`(prob_id, cached lineup, roster)`: an uncaught exception from one side
aborts the whole loop (`none`); otherwise every side yields its own
outcome, independent of the others. -/
def process_batch : List (Option ℕ × List ℕ × List ℕ) → Option (List SideResult)
  | [] => some []
  | s :: rest =>
    match process_side s.1 s.2.1 s.2.2 with
    | SideResult.crash => none
    | r =>
      match process_batch rest with
      | some rs => some (r :: rs)
      | none => none

/-- A batch whose sides all have a probable pitcher id is processed in
full: no outcome aborts the loop and each side gets exactly one outcome. -/
lemma process_batch_total (sides : List (Option ℕ × List ℕ × List ℕ))
    (hall : ∀ s ∈ sides, s.1 ≠ none) :
    ∃ rs, process_batch sides = some rs ∧ rs.length = sides.length := by
  induction sides with
  | nil => exact ⟨[], rfl, rfl⟩
  | cons s rest ih =>
    obtain ⟨rs, hrs, hlen⟩ := ih (fun x hx => hall x (List.mem_cons_of_mem _ hx))
    have hs : s.1 ≠ none := hall s (List.mem_cons_self _ _)
    have hnc : process_side s.1 s.2.1 s.2.2 ≠ SideResult.crash := by
      cases h1 : s.1 with
      | none => exact absurd h1 hs
      | some pid =>
        simp only [process_side]
        intro h
        split at h <;> (try split at h) <;> exact SideResult.noConfusion h
    cases hps : process_side s.1 s.2.1 s.2.2 with
    | crash => exact absurd hps hnc
    | skipped reason =>
      refine ⟨SideResult.skipped reason :: rs, ?_, by simp [hlen]⟩
      simp only [process_batch, hps, hrs]
    | emitted lu src =>
      refine ⟨SideResult.emitted lu src :: rs, ?_, by simp [hlen]⟩
      simp only [process_batch, hps, hrs]

end TodayKProj

/-- C9 counterexample: a side whose cached lineup has 8 batter ids and
whose team roster has at least nine players is not skipped at all — the
roster fallback fills the lineup and a row is emitted; in particular the
side is not skipped with reason "bad_lineup" (that reason string exists
only in the dataset builders src/04_build_dataset.py and
src/build_historical_dataset.py, not in the projection loop). -/
theorem eight_man_lineup_counterexample :
    TodayKProj.process_side (some 1) [1, 2, 3, 4, 5, 6, 7, 8]
        [11, 12, 13, 14, 15, 16, 17, 18, 19, 20]
      = TodayKProj.SideResult.emitted [11, 12, 13, 14, 15, 16, 17, 18, 19] (r"roster")
    ∧ TodayKProj.SideResult.emitted [11, 12, 13, 14, 15, 16, 17, 18, 19] (r"roster")
      ≠ TodayKProj.SideResult.skipped (r"bad_lineup") := by
  constructor
  · rfl
  · simp

/-- C9 amended: with a pitcher id present, a cached lineup shorter than
nine ids falls back to the first nine roster ids and the side is emitted
when those are nine; it is skipped — with the printed reason
"lineup incomplete", not "bad_lineup" — only when the roster fallback is
also short, and the skip emits no row; a cached lineup of nine or more ids
is used as-is; a missing pitcher id crashes the batch (the isna skip is
unreachable behind `int()`); a batch whose sides all have pitcher ids is
processed to completion, one outcome per side. -/
theorem lineup_handling_amended (pid : ℕ) (cached roster : List ℕ)
    (sides : List (Option ℕ × List ℕ × List ℕ)) :
    (cached.length < 9 → 9 ≤ roster.length →
      TodayKProj.process_side (some pid) cached roster
        = TodayKProj.SideResult.emitted (roster.take 9) (r"roster"))
    ∧ (cached.length < 9 → roster.length < 9 →
      TodayKProj.process_side (some pid) cached roster
        = TodayKProj.SideResult.skipped (r"lineup incomplete"))
    ∧ (9 ≤ cached.length →
      TodayKProj.process_side (some pid) cached roster
        = TodayKProj.SideResult.emitted cached (r"cache"))
    ∧ TodayKProj.process_side none cached roster = TodayKProj.SideResult.crash
    ∧ ((∀ s ∈ sides, s.1 ≠ none) →
      ∃ rs, TodayKProj.process_batch sides = some rs ∧ rs.length = sides.length) := by
  refine ⟨?_, ?_, ?_, rfl, TodayKProj.process_batch_total sides⟩
  · intro h1 h2
    have hlu : (roster.take 9).length = 9 := by
      simp only [List.length_take]
      omega
    simp [TodayKProj.process_side, TodayKProj.roster_lineup, h1, hlu]
  · intro h1 h2
    simp [TodayKProj.process_side, TodayKProj.roster_lineup, h1, List.length_take]
    omega
  · intro h1
    have h1' : ¬ cached.length < 9 := Nat.not_lt.mpr h1
    simp [TodayKProj.process_side, h1']

/-- Witness for the amended C9: an 8-id cached lineup with an empty roster
is skipped with the reason "lineup incomplete", and a one-side batch with
a pitcher id present is processed in full. -/
theorem lineup_handling_amended_witness :
    TodayKProj.process_side (some 1) [1, 2, 3, 4, 5, 6, 7, 8] []
      = TodayKProj.SideResult.skipped (r"lineup incomplete")
    ∧ ∃ rs, TodayKProj.process_batch
        [(some 1, [1, 2, 3, 4, 5, 6, 7, 8, 9], ([] : List ℕ))]
      = some rs ∧ rs.length = 1 := by
  constructor
  · exact (lineup_handling_amended 1 [1, 2, 3, 4, 5, 6, 7, 8] [] []).2.1
      (by norm_num) (by norm_num)
  · exact (lineup_handling_amended 1 [] []
      [(some 1, [1, 2, 3, 4, 5, 6, 7, 8, 9], ([] : List ℕ))]).2.2.2.2 (by simp)

/-- C10: one realization of the fixed-outs-threshold simulator
(`sim_game` of src/gen_simulations.py) returns a strikeout count between 0
and `max_outs`: every plate appearance consumes exactly one out, so the
count can never exceed the outs threshold (the function is structurally
recursive on the remaining outs, hence total). -/
theorem sim_game_bounded (pks : List ℚ) (max_outs : ℕ) (u : ℕ → ℚ)
    (hlen : 1 ≤ pks.length) (hp : ∀ p ∈ pks, 0 ≤ p ∧ p ≤ 1)
    (hmo : 1 ≤ max_outs) :
    0 ≤ GenSimulations.sim_game pks max_outs u
    ∧ GenSimulations.sim_game pks max_outs u ≤ max_outs :=
  ⟨Nat.zero_le _, GenSimulations.sim_game_aux_le pks u max_outs 0 0⟩

/-- Witness for C10 at the probability vector [1/2, 1/4], 3 outs and the
constant uniform stream 1/3. -/
theorem sim_game_bounded_witness :
    0 ≤ GenSimulations.sim_game [1/2, 1/4] 3 (fun _ => 1/3)
    ∧ GenSimulations.sim_game [1/2, 1/4] 3 (fun _ => 1/3) ≤ 3 :=
  sim_game_bounded [1/2, 1/4] 3 (fun _ => 1/3) (by simp)
    (by
      intro p hp
      simp only [List.mem_cons, List.mem_singleton, List.not_mem_nil] at hp
      rcases hp with h | h | h
      · constructor <;> norm_num [h]
      · constructor <;> norm_num [h]
      · exact absurd h (by simp))
    (by norm_num)
